import Mathlib

set_option maxHeartbeats 1000000
set_option maxRecDepth 4000

/-!
Shallow embedding of the yasgui geo plugin (the datatype-dispatch variant of
the GeoPlugin class): the conversion table, geometry normalization,
feature-collection building, first-row column detection, and the draw /
update-map cycle over an explicit plugin state.
-/

/-- A SPARQL JSON results cell: a value string together with an optional
datatype URI and an optional language tag. -/
structure TypedValue where
  value : String
  datatype : Option String
  lang : Option String := none
deriving DecidableEq

/-- A binding row: an ordered mapping from column name to typed value
(keys are unique, as in a JSON object). -/
abbrev Row := List (String × TypedValue)

/-- A GeoJSON-style geometry object: a type tag and, for points, a flat
coordinate list. -/
structure Geometry where
  type : String
  coordinates : List Int
deriving DecidableEq

/-- The degenerate empty point geometry used by `createGeojson` as the
fallback for datatypes outside the conversion table. -/
def emptyPoint : Geometry := { type := "Point", coordinates := [] }

/-- The value stored in a built feature's geometry slot: a structured
geometry object, the null an external WKT parser returns on failure, or a
raw string passed through unparsed (the GeoJSON-literal conversion is the
identity on the cell's string value). -/
inductive GeoValue where
  | obj (g : Geometry)
  | null
  | str (s : String)
deriving DecidableEq

/-- Datatype URI for GeoSPARQL WKT literals. -/
def wktLiteral : String := "http://www.opengis.net/ont/geosparql#wktLiteral"

/-- Datatype URI for the Virtuoso vendor geometry literal. -/
def virtGeometry : String := "http://www.openlinksw.com/schemas/virtrdf#Geometry"

/-- Datatype URI for GeoSPARQL GeoJSON literals. -/
def geoJSONLiteral : String := "http://www.opengis.net/ont/geosparql#geoJSONLiteral"

/-- The keys of the `conversions` dispatch object, in insertion order. -/
def conversionKeys : List String := [wktLiteral, virtGeometry, geoJSONLiteral]

/-- The `conversions` dispatch table: WKT-family datatypes go through the
external WKT parser `pw`; the GeoJSON-literal datatype maps to the identity
on the value string; any other key is absent. -/
def conversions (pw : String → GeoValue) (dt : String) : Option (String → GeoValue) :=
  if dt = wktLiteral then some pw
  else if dt = virtGeometry then some pw
  else if dt = geoJSONLiteral then some (fun geojson => GeoValue.str geojson)
  else none

/-- A stand-in for the external WKT parser used to instantiate concrete
computations: it reports failure (null) on every input; the plugin's own
logic never depends on the parser's internals. -/
def wktNull : String → GeoValue := fun _ => GeoValue.null

/-- The geometry expression of `createGeojson` for one cell: dispatch on the
cell's datatype through `conversions`, falling back to the degenerate empty
point when the datatype is absent or not a key of the table. -/
def normalizeGeometry (pw : String → GeoValue) (tv : TypedValue) : GeoValue :=
  match tv.datatype with
  | some dt =>
    match conversions pw dt with
    | some f => f tv.value
    | none => GeoValue.obj emptyPoint
  | none => GeoValue.obj emptyPoint

/-- A GeoJSON Feature as built by `createGeojson`: the whole row as
properties plus the normalized geometry. -/
structure Feature where
  type : String
  properties : Row
  geometry : GeoValue
deriving DecidableEq

/-- A GeoJSON FeatureCollection as built by `createGeojson`. -/
structure FeatureCollection where
  type : String
  features : List Feature
deriving DecidableEq

/-- The features array of `createGeojson`: one feature per row in row
order; `none` models the TypeError thrown when a row lacks the geometry
column (accessing `.datatype` of an undefined cell). -/
def buildFeatures (pw : String → GeoValue) (column : String) :
    List Row → Option (List Feature)
  | [] => some []
  | item :: rest =>
    match item.lookup column with
    | none => none
    | some tv =>
      (buildFeatures pw column rest).map
        (fun fs =>
          { type := "Feature", properties := item,
            geometry := normalizeGeometry pw tv } :: fs)

/-- `createGeojson(bindings, column)`: a FeatureCollection with one feature
per binding row; `none` models the TypeError thrown when some row lacks the
column. -/
def createGeojson (pw : String → GeoValue) (bindings : List Row) (column : String) :
    Option FeatureCollection :=
  (buildFeatures pw column bindings).map
    (fun fs => { type := "FeatureCollection", features := fs })

/-- A detected geometry column: `{ colName, datatype }`. -/
structure ColumnDescriptor where
  colName : String
  datatype : String
deriving DecidableEq

/-- The truthy-datatype-and-table-membership test of `updateColumns`:
`firstColumn[k].datatype && Object.keys(conversions).includes(datatype)`. -/
def recognizedDatatype (tv : TypedValue) : Bool :=
  match tv.datatype with
  | some dt => decide (dt ≠ "" ∧ dt ∈ conversionKeys)
  | none => false

/-- The column detection of `updateColumns`: examine the first row only
(`bindings[0] ?? {}`) and keep, in key order, every column whose typed value
carries a datatype that is a key of the conversion table. -/
def detectColumns (bindings : List Row) : List ColumnDescriptor :=
  let firstColumn := bindings.headD []
  (firstColumn.filter (fun kv => recognizedDatatype kv.snd)).map
    (fun kv => { colName := kv.fst, datatype := kv.snd.datatype.getD "" })

/-- The innermost `results.bindings` list of the host's results object. -/
structure JsonResults where
  bindings : Option (List Row)
deriving DecidableEq

/-- The `json.results` layer of the host's results object. -/
structure ResultsJson where
  results : Option JsonResults
deriving DecidableEq

/-- The `results.json` layer of the host's results object. -/
structure YasrResults where
  json : Option ResultsJson
deriving DecidableEq

/-- The host (`yasr`) object as read by the plugin: it carries the current
results, which the plugin only reads. -/
structure Yasr where
  results : Option YasrResults
deriving DecidableEq

/-- The plugin instance's mutable state: the host reference, the detected
geometry columns, the lazily initialized map surface flag, and the contents
of the Results layer group (one feature collection per rendered column). -/
structure GeoPluginState where
  yasr : Option Yasr
  priority : Nat
  label : String
  geometryColumns : List ColumnDescriptor
  initialized : Bool
  lg : List FeatureCollection
deriving DecidableEq

/-- The optional chain `this.yasr?.results?.json?.results?.bindings`. -/
def bindingsChain (s : GeoPluginState) : Option (List Row) :=
  (((s.yasr.bind Yasr.results).bind YasrResults.json).bind ResultsJson.results).bind
    JsonResults.bindings

/-- `this.yasr?.results?.json?.results?.bindings ?? []`. -/
def getBindings (s : GeoPluginState) : List Row :=
  (bindingsChain s).getD []

/-- `updateColumns()`: recompute and overwrite `this.geometryColumns` from
the current result set. -/
def updateColumns (s : GeoPluginState) : GeoPluginState :=
  { s with geometryColumns := detectColumns (getBindings s) }

/-- `canHandleResults()`: re-run column detection, then report whether the
descriptor list is non-empty; the pair returns the updated plugin state the
call leaves behind. -/
def canHandleResults (s : GeoPluginState) : Bool × GeoPluginState :=
  let t := updateColumns s
  (decide (0 < t.geometryColumns.length), t)

/-- The plugin constructor: store the host, set priority and label, and run
`updateColumns()` once. -/
def newGeoPlugin (yasr : Option Yasr) : GeoPluginState :=
  updateColumns
    { yasr := yasr, priority := 30, label := "Geo", geometryColumns := [],
      initialized := false, lg := [] }

/-- The outcome of one pass over the detected geometry columns inside
`updateMap`: the layers added to the Results layer group, how many in-loop
bounds-fit calls ran, and whether the loop finished without throwing. -/
structure LoopResult where
  layers : List FeatureCollection
  fits : Nat
  ok : Bool
deriving DecidableEq

/-- The for-loop of `updateMap`: for each detected column read
`this.yasr.results.json.results.bindings` (unguarded: absent results throw),
build its feature collection, add it to the layer group, and perform an
in-loop bounds-fit when the collection is non-empty; a thrown TypeError
stops the loop, keeping the layers already added. -/
def updateMapLoop (pw : String → GeoValue) (bindingsOpt : Option (List Row)) :
    List ColumnDescriptor → LoopResult
  | [] => { layers := [], fits := 0, ok := true }
  | c :: rest =>
    match bindingsOpt with
    | none => { layers := [], fits := 0, ok := false }
    | some bindings =>
      match createGeojson pw bindings c.colName with
      | none => { layers := [], fits := 0, ok := false }
      | some fc =>
        let r := updateMapLoop pw bindingsOpt rest
        { layers := fc :: r.layers,
          fits := (if 0 < fc.features.length then 1 else 0) + r.fits,
          ok := r.ok }

/-- The observable outcome of one `updateMap` (and hence `draw`) call: the
state it leaves, the number of in-loop bounds-fit calls, whether the
deferred 100ms follow-up (which unconditionally calls `fitBounds`) was
scheduled, and whether the call returned without throwing. -/
structure DrawResult where
  state : GeoPluginState
  boundsFitsDuringDraw : Nat
  deferredBoundsFit : Bool
  ok : Bool
deriving DecidableEq

/-- `updateMap()`: lazily initialize the map surface, clear the Results
layer group, rebuild it from the detected columns, and — when the loop
completes — schedule the deferred follow-up that forces a redraw and
unconditionally re-applies the bounds-fit. -/
def updateMap (pw : String → GeoValue) (s : GeoPluginState) : DrawResult :=
  let s1 := { s with initialized := true }
  let r := updateMapLoop pw (bindingsChain s1) s1.geometryColumns
  { state := { s1 with lg := r.layers },
    boundsFitsDuringDraw := r.fits,
    deferredBoundsFit := r.ok,
    ok := r.ok }

/-- `draw()`: `this.updateColumns(); this.updateMap();`. -/
def draw (pw : String → GeoValue) (s : GeoPluginState) : DrawResult :=
  updateMap pw (updateColumns s)

/-- The popup truncation of `onEachFeature`: values longer than 120
characters are cut to their first 120 characters plus an ellipsis. -/
def truncateValue (v : String) : String :=
  if 120 < v.length then v.take 120 ++ "..." else v

/-- One line of popup content for a property: `<b>key:</b> value` with the
value truncated. -/
def popupEntry (k : String) (tv : TypedValue) : String :=
  "<b>" ++ k ++ ":</b> " ++ truncateValue tv.value

/-- The full popup content for a feature: one entry per property joined by
line breaks. -/
def popupContent (p : Row) : String :=
  String.intercalate "<br>" (p.map (fun kv => popupEntry kv.fst kv.snd))

/-! Concrete result sets and plugin states used to instantiate the claims. -/

/-- A plugin state whose host carries the given binding rows. -/
def stateOfBindings (bindings : List Row) : GeoPluginState :=
  { yasr := some { results := some { json := some { results := some { bindings := some bindings } } } },
    priority := 30, label := "Geo", geometryColumns := [], initialized := false,
    lg := [] }

/-- The GeoJSON text for the point (1, 2). -/
def geojsonPointText : String :=
  "\x7b\"type\":\"Point\",\"coordinates\":[1,2]\x7d"

/-- A one-column row whose cell carries the GeoJSON point text. -/
def geojsonRow : Row :=
  [("geo", { value := geojsonPointText, datatype := some geoJSONLiteral })]

/-- A one-column row whose cell carries malformed GeoJSON text. -/
def malformedRow : Row :=
  [("geo", { value := "this is not geojson", datatype := some geoJSONLiteral })]

/-- A WKT-literal cell with a concrete point value. -/
def wktCell : TypedValue :=
  { value := "POINT(4.35 50.85)", datatype := some wktLiteral }

/-- A result set whose first row binds the geometry column and whose second
row does not. -/
def bindingsMissingCell : List Row := [[("geo", wktCell)], []]

/-- A plugin state over a result set with zero rows. -/
def emptyResultsState : GeoPluginState := stateOfBindings []

/-- A plugin state over a one-row result set with one WKT geometry column
and one plain literal column. -/
def oneRowState : GeoPluginState :=
  stateOfBindings [[("place", { value := "Brussels", datatype := none }),
                    ("geo", wktCell)]]

/-- A plugin state holding stale detected columns: the stored descriptor
list does not match the (now empty) current result set. -/
def staleState : GeoPluginState :=
  { stateOfBindings [] with
    geometryColumns := [{ colName := "geo", datatype := wktLiteral }] }

/-- A plugin state with no host at all. -/
def noYasrState : GeoPluginState :=
  { yasr := none, priority := 30, label := "Geo", geometryColumns := [],
    initialized := false, lg := [] }

/-- A 121-character property value. -/
def longValue : String := String.mk (List.replicate 121 'x')

/-! Helper lemmas about the conversion table and the normalizer. -/

theorem conversions_wkt (pw : String → GeoValue) :
    conversions pw wktLiteral = some pw := by
  unfold conversions
  rw [if_pos rfl]

theorem conversions_virt (pw : String → GeoValue) :
    conversions pw virtGeometry = some pw := by
  unfold conversions
  rw [if_neg (by decide), if_pos rfl]

theorem conversions_geojson (pw : String → GeoValue) :
    conversions pw geoJSONLiteral = some (fun geojson => GeoValue.str geojson) := by
  unfold conversions
  rw [if_neg (by decide), if_neg (by decide), if_pos rfl]

theorem conversions_none (pw : String → GeoValue) (dt : String)
    (h : dt ∉ conversionKeys) : conversions pw dt = none := by
  unfold conversionKeys at h
  simp only [List.mem_cons, List.not_mem_nil, or_false, not_or] at h
  obtain ⟨h1, h2, h3⟩ := h
  unfold conversions
  rw [if_neg h1, if_neg h2, if_neg h3]

theorem normalize_geojson (pw : String → GeoValue) (tv : TypedValue)
    (h : tv.datatype = some geoJSONLiteral) :
    normalizeGeometry pw tv = GeoValue.str tv.value := by
  simp [normalizeGeometry, h, conversions_geojson]

theorem normalize_wkt (pw : String → GeoValue) (tv : TypedValue)
    (h : tv.datatype = some wktLiteral) :
    normalizeGeometry pw tv = pw tv.value := by
  simp [normalizeGeometry, h, conversions_wkt]

theorem normalize_virt (pw : String → GeoValue) (tv : TypedValue)
    (h : tv.datatype = some virtGeometry) :
    normalizeGeometry pw tv = pw tv.value := by
  simp [normalizeGeometry, h, conversions_virt]

theorem normalize_unknown (pw : String → GeoValue) (tv : TypedValue)
    (h : ∀ dt, tv.datatype = some dt → dt ∉ conversionKeys) :
    normalizeGeometry pw tv = GeoValue.obj emptyPoint := by
  cases hd : tv.datatype with
  | none => simp [normalizeGeometry, hd]
  | some dt => simp [normalizeGeometry, hd, conversions_none pw dt (h dt hd)]

/-! Helper lemmas about the feature-collection builder. -/

theorem buildFeatures_length (pw : String → GeoValue) (column : String) :
    ∀ (bindings : List Row) (fs : List Feature),
      buildFeatures pw column bindings = some fs → fs.length = bindings.length := by
  intro bindings
  induction bindings with
  | nil =>
    intro fs h
    simp [buildFeatures] at h
    simp [← h]
  | cons item rest ih =>
    intro fs h
    rw [buildFeatures] at h
    cases hl : item.lookup column with
    | none => rw [hl] at h; simp at h
    | some tv =>
      rw [hl] at h
      simp only [Option.map_eq_some'] at h
      obtain ⟨fs2, hrest, hfs⟩ := h
      subst hfs
      simp [ih fs2 hrest]

theorem buildFeatures_total (pw : String → GeoValue) (column : String) :
    ∀ (bindings : List Row),
      (∀ row ∈ bindings, (row.lookup column).isSome = true) →
      ∃ fs, buildFeatures pw column bindings = some fs := by
  intro bindings
  induction bindings with
  | nil => intro _; exact ⟨[], rfl⟩
  | cons item rest ih =>
    intro h
    obtain ⟨tv, htv⟩ := Option.isSome_iff_exists.mp (h item (List.mem_cons_self item rest))
    obtain ⟨fs2, hfs2⟩ := ih (fun row hr => h row (List.mem_cons_of_mem item hr))
    refine ⟨{ type := "Feature", properties := item,
              geometry := normalizeGeometry pw tv } :: fs2, ?_⟩
    rw [buildFeatures, htv, hfs2]
    rfl

theorem buildFeatures_get (pw : String → GeoValue) (column : String) :
    ∀ (bindings : List Row) (fs : List Feature) (i : Nat) (item : Row),
      buildFeatures pw column bindings = some fs →
      bindings.get? i = some item →
      ∃ tv f, item.lookup column = some tv ∧ fs.get? i = some f ∧
        f.properties = item ∧ f.geometry = normalizeGeometry pw tv := by
  intro bindings
  induction bindings with
  | nil => intro fs i item _ hi; simp at hi
  | cons a rest ih =>
    intro fs i item hb hi
    rw [buildFeatures] at hb
    cases hl : a.lookup column with
    | none => rw [hl] at hb; simp at hb
    | some tv =>
      rw [hl] at hb
      simp only [Option.map_eq_some'] at hb
      obtain ⟨fs2, hrest, hfs⟩ := hb
      subst hfs
      cases i with
      | zero =>
        simp at hi
        subst hi
        exact ⟨tv, _, hl, rfl, rfl, rfl⟩
      | succ n =>
        simp only [List.get?_cons_succ] at hi ⊢
        exact ih fs2 n item hrest hi

/-! Helper lemmas about column detection and the probe. -/

theorem detectColumns_nil : detectColumns [] = [] := rfl

theorem conversionKeys_ne_empty : ∀ dt ∈ conversionKeys, dt ≠ "" := by decide

theorem detectColumns_ne_nil (bindings : List Row) (firstRow : Row)
    (hh : bindings.headD [] = firstRow)
    (kv : String × TypedValue) (hkv : kv ∈ firstRow) (dt : String)
    (hdt : kv.snd.datatype = some dt) (hmem : dt ∈ conversionKeys) :
    detectColumns bindings ≠ [] := by
  unfold detectColumns
  rw [hh]
  intro hcontra
  rw [List.map_eq_nil_iff] at hcontra
  rw [List.filter_eq_nil_iff] at hcontra
  apply hcontra kv hkv
  unfold recognizedDatatype
  rw [hdt]
  simp only [decide_eq_true_eq]
  exact ⟨conversionKeys_ne_empty dt hmem, hmem⟩

theorem detectColumns_eq_nil (bindings : List Row)
    (h : ∀ kv ∈ bindings.headD [], ∀ dt, kv.snd.datatype = some dt →
      dt ∉ conversionKeys) :
    detectColumns bindings = [] := by
  unfold detectColumns
  rw [List.map_eq_nil_iff, List.filter_eq_nil_iff]
  intro kv hkv
  unfold recognizedDatatype
  cases hd : kv.snd.datatype with
  | none => simp
  | some dt =>
    simp only [decide_eq_true_eq, not_and]
    intro _
    exact h kv hkv dt hd

theorem canHandleResults_fst (s : GeoPluginState) :
    (canHandleResults s).1 = decide (0 < (detectColumns (getBindings s)).length) := rfl

theorem canHandleResults_snd (s : GeoPluginState) :
    (canHandleResults s).2 = updateColumns s := rfl

/-! Helper lemmas about the draw cycle. -/

theorem updateMapLoop_layers (pw : String → GeoValue) (bindings : List Row) :
    ∀ (cols : List ColumnDescriptor),
      (∀ c ∈ cols, (createGeojson pw bindings c.colName).isSome = true) →
      (updateMapLoop pw (some bindings) cols).layers.map some =
        cols.map (fun c => createGeojson pw bindings c.colName) := by
  intro cols
  induction cols with
  | nil => intro _; rfl
  | cons c rest ih =>
    intro h
    obtain ⟨fc, hfc⟩ :=
      Option.isSome_iff_exists.mp (h c (List.mem_cons_self c rest))
    rw [updateMapLoop, hfc]
    simp only [List.map_cons, hfc]
    rw [ih (fun d hd => h d (List.mem_cons_of_mem c hd))]

theorem draw_state_yasr (pw : String → GeoValue) (s : GeoPluginState) :
    (draw pw s).state.yasr = s.yasr := rfl

theorem draw_state_lg (pw : String → GeoValue) (s : GeoPluginState) :
    (draw pw s).state.lg =
      (updateMapLoop pw (bindingsChain s) (detectColumns (getBindings s))).layers := rfl

theorem bindingsChain_eq_of_yasr (s t : GeoPluginState) (h : t.yasr = s.yasr) :
    bindingsChain t = bindingsChain s := by
  unfold bindingsChain
  rw [h]

theorem draw_lg_eq_of_yasr (pw : String → GeoValue) (s t : GeoPluginState)
    (h : t.yasr = s.yasr) :
    (draw pw t).state.lg = (draw pw s).state.lg := by
  have hb : bindingsChain t = bindingsChain s := bindingsChain_eq_of_yasr s t h
  rw [draw_state_lg, draw_state_lg, hb]
  unfold getBindings
  rw [hb]

theorem detectColumns_of_chain_none (s : GeoPluginState)
    (h : bindingsChain s = none) : detectColumns (getBindings s) = [] := by
  unfold getBindings
  rw [h]
  rfl

/-! Claim theorems. -/

/-- C1: for every result set whose first row has at least one column whose
typed value carries a datatype URI present in the conversion table,
canHandleResults() returns true; for a result set with zero rows, or one in
which no column of any row carries a recognized datatype, it returns
false. -/
theorem C1_canHandleResults (s : GeoPluginState) :
    ((∃ kv ∈ (getBindings s).headD [], ∃ dt, kv.snd.datatype = some dt ∧
        dt ∈ conversionKeys) → (canHandleResults s).1 = true) ∧
    (getBindings s = [] → (canHandleResults s).1 = false) ∧
    ((∀ row ∈ getBindings s, ∀ kv ∈ row, ∀ dt, kv.snd.datatype = some dt →
        dt ∉ conversionKeys) → (canHandleResults s).1 = false) := by
  refine ⟨?_, ?_, ?_⟩
  · rintro ⟨kv, hkv, dt, hdt, hmem⟩
    rw [canHandleResults_fst]
    simp only [decide_eq_true_eq]
    exact List.length_pos.mpr
      (detectColumns_ne_nil (getBindings s) ((getBindings s).headD []) rfl
        kv hkv dt hdt hmem)
  · intro h
    rw [canHandleResults_fst, h]
    rfl
  · intro h
    rw [canHandleResults_fst]
    have hd : detectColumns (getBindings s) = [] := by
      apply detectColumns_eq_nil
      intro kv hkv dt hdt
      cases hb : getBindings s with
      | nil => rw [hb] at hkv; simp at hkv
      | cons r rest =>
        rw [hb] at hkv
        simp only [List.headD_cons] at hkv
        exact h r (by rw [hb]; exact List.mem_cons_self r rest) kv hkv dt hdt
    rw [hd]
    rfl

/-- C1 witness: a one-row result set with a WKT-literal column is accepted;
a state with no results at all is rejected. -/
theorem C1_witness :
    (canHandleResults oneRowState).1 = true ∧
    (canHandleResults noYasrState).1 = false :=
  ⟨(C1_canHandleResults oneRowState).1
      ⟨("geo", wktCell), by decide, wktLiteral, by decide, by decide⟩,
   (C1_canHandleResults noYasrState).2.1 (by decide)⟩

/-- C2 counterexample: for the GeoJSON point text, the feature's geometry is
the raw unparsed string, which is not the structured Point geometry object
the claim promises. -/
theorem C2_counterexample :
    (createGeojson wktNull [geojsonRow] "geo").map
        (fun fc => fc.features.map Feature.geometry) =
      some [GeoValue.str geojsonPointText] ∧
    GeoValue.str geojsonPointText ≠
      GeoValue.obj { type := "Point", coordinates := [1, 2] } := by decide

/-- C2 amended: for every row whose cell in the geometry column has the
GeoJSON-literal datatype, the feature built for that row carries the cell's
text passed through unchanged as its geometry — the conversion is the
identity and no parsing happens. -/
theorem C2_geojson_passthrough (pw : String → GeoValue) (bindings : List Row)
    (fc : FeatureCollection) (col : String) (i : Nat) (item : Row)
    (tv : TypedValue)
    (h1 : createGeojson pw bindings col = some fc)
    (h2 : bindings.get? i = some item)
    (h3 : item.lookup col = some tv)
    (h4 : tv.datatype = some geoJSONLiteral) :
    ∃ f, fc.features.get? i = some f ∧ f.geometry = GeoValue.str tv.value := by
  unfold createGeojson at h1
  obtain ⟨fs, hb, hfc⟩ := Option.map_eq_some'.mp h1
  obtain ⟨tv2, f, htv2, hf, hprop, hgeom⟩ :=
    buildFeatures_get pw col bindings fs i item hb h2
  rw [h3] at htv2
  obtain rfl := Option.some.inj htv2
  refine ⟨f, ?_, ?_⟩
  · rw [← hfc]
    exact hf
  · rw [hgeom, normalize_geojson pw _ h4]

/-- C2 witness: the one-row GeoJSON result set yields a feature whose
geometry is the raw text. -/
theorem C2_witness :
    ∃ f, (({ type := "FeatureCollection",
             features := [{ type := "Feature", properties := geojsonRow,
                            geometry := GeoValue.str geojsonPointText }] } :
              FeatureCollection)).features.get? 0 = some f ∧
      f.geometry = GeoValue.str geojsonPointText :=
  C2_geojson_passthrough wktNull [geojsonRow]
    { type := "FeatureCollection",
      features := [{ type := "Feature", properties := geojsonRow,
                     geometry := GeoValue.str geojsonPointText }] }
    "geo" 0 geojsonRow
    { value := geojsonPointText, datatype := some geoJSONLiteral }
    (by decide) (by decide) (by decide) (by decide)

/-- C3 counterexample: a malformed GeoJSON text is not replaced by the
degenerate empty point; it is passed through unchanged as the feature's
geometry. -/
theorem C3_counterexample :
    (createGeojson wktNull [malformedRow] "geo").map
        (fun fc => fc.features.map Feature.geometry) =
      some [GeoValue.str "this is not geojson"] ∧
    GeoValue.str "this is not geojson" ≠ GeoValue.obj emptyPoint := by decide

/-- C3 amended: no per-feature parse-failure guard exists — a cell with the
GeoJSON-literal datatype keeps its (possibly malformed) text unchanged as
geometry, a WKT-family cell gets exactly what the external parser returns
for its text, the empty-point fallback fires only for unrecognized
datatypes, and every remaining row's feature is still built (one feature
per row). -/
theorem C3_malformed_behavior (pw : String → GeoValue) (tv : TypedValue)
    (bindings : List Row) (col : String)
    (hall : ∀ row ∈ bindings, (row.lookup col).isSome = true) :
    (tv.datatype = some geoJSONLiteral →
      normalizeGeometry pw tv = GeoValue.str tv.value) ∧
    (tv.datatype = some wktLiteral → normalizeGeometry pw tv = pw tv.value) ∧
    (tv.datatype = some virtGeometry → normalizeGeometry pw tv = pw tv.value) ∧
    ∃ fc, createGeojson pw bindings col = some fc ∧
      fc.features.length = bindings.length := by
  refine ⟨normalize_geojson pw tv, normalize_wkt pw tv, normalize_virt pw tv, ?_⟩
  obtain ⟨fs, hfs⟩ := buildFeatures_total pw col bindings hall
  refine ⟨{ type := "FeatureCollection", features := fs }, ?_, ?_⟩
  · unfold createGeojson
    rw [hfs]
    rfl
  · exact buildFeatures_length pw col bindings fs hfs

/-- C3 witness: the malformed one-row result set still builds one feature
per row. -/
theorem C3_witness :
    ∃ fc, createGeojson wktNull [malformedRow] "geo" = some fc ∧
      fc.features.length = ([malformedRow] : List Row).length :=
  (C3_malformed_behavior wktNull
    { value := "this is not geojson", datatype := some geoJSONLiteral }
    [malformedRow] "geo" (by decide)).2.2.2

/-- C4: every popup property value longer than 120 characters is shown as
exactly its first 120 characters followed by an ellipsis; a value of length
120 or less is shown verbatim. -/
theorem C4_truncation (k : String) (tv : TypedValue) :
    (120 < tv.value.length →
      popupEntry k tv = "<b>" ++ k ++ ":</b> " ++ (tv.value.take 120 ++ "...")) ∧
    (tv.value.length ≤ 120 →
      popupEntry k tv = "<b>" ++ k ++ ":</b> " ++ tv.value) := by
  constructor
  · intro h
    unfold popupEntry truncateValue
    rw [if_pos h]
  · intro h
    unfold popupEntry truncateValue
    rw [if_neg (by omega)]

/-- C4 witness: a 121-character value is truncated with an ellipsis and a
short value is shown verbatim. -/
theorem C4_witness :
    popupEntry "p" { value := longValue, datatype := none } =
      "<b>" ++ "p" ++ ":</b> " ++ (longValue.take 120 ++ "...") ∧
    popupEntry "q" { value := "short", datatype := none } =
      "<b>" ++ "q" ++ ":</b> " ++ "short" :=
  ⟨(C4_truncation "p" { value := longValue, datatype := none }).1 (by decide),
   (C4_truncation "q" { value := "short", datatype := none }).2 (by decide)⟩

/-- C5 counterexample: with the geometry column detected from the first row
but absent from the second row, building the feature collection fails (the
TypeError of reading `.datatype` of an undefined cell), so no collection —
in particular none with one feature per row — is produced. -/
theorem C5_counterexample :
    detectColumns bindingsMissingCell =
      [{ colName := "geo", datatype := wktLiteral }] ∧
    createGeojson wktNull bindingsMissingCell "geo" = none := by decide

/-- C5 amended: for every result set in which every row binds the detected
geometry column, the collection has exactly one feature per row, in row
order, whose properties are that entire row unmodified (the builder is a
pure read of the result set). -/
theorem C5_feature_per_row (pw : String → GeoValue) (bindings : List Row)
    (col : String)
    (h : ∀ row ∈ bindings, (row.lookup col).isSome = true) :
    ∃ fc, createGeojson pw bindings col = some fc ∧
      fc.features.length = bindings.length ∧
      ∀ i item, bindings.get? i = some item →
        ∃ f, fc.features.get? i = some f ∧ f.properties = item := by
  obtain ⟨fs, hfs⟩ := buildFeatures_total pw col bindings h
  refine ⟨{ type := "FeatureCollection", features := fs }, ?_, ?_, ?_⟩
  · unfold createGeojson
    rw [hfs]
    rfl
  · exact buildFeatures_length pw col bindings fs hfs
  · intro i item hi
    obtain ⟨tv, f, htv, hf, hprop, hgeom⟩ :=
      buildFeatures_get pw col bindings fs i item hfs hi
    exact ⟨f, hf, hprop⟩

/-- C5 witness: a two-row result set in which both rows bind the geometry
column builds one feature per row with the rows as properties. -/
theorem C5_witness :
    ∃ fc, createGeojson wktNull [[("geo", wktCell)], [("geo", wktCell)]] "geo" =
        some fc ∧
      fc.features.length = ([[("geo", wktCell)], [("geo", wktCell)]] : List Row).length ∧
      ∀ i item, ([[("geo", wktCell)], [("geo", wktCell)]] : List Row).get? i = some item →
        ∃ f, fc.features.get? i = some f ∧ f.properties = item :=
  C5_feature_per_row wktNull [[("geo", wktCell)], [("geo", wktCell)]] "geo"
    (by decide)

/-- C6: drawing twice with an unchanged result set leaves the Results layer
group with the same contents as one draw; the contents never depend on what
the layer group held before; and (when every row binds every detected
column) the group holds exactly one feature collection per detected column,
each derived from the current result set. -/
theorem C6_draw_idempotent (pw : String → GeoValue) (s : GeoPluginState)
    (lg0 : List FeatureCollection)
    (h : ∀ c ∈ detectColumns (getBindings s), ∀ row ∈ getBindings s,
      (row.lookup c.colName).isSome = true) :
    (draw pw (draw pw s).state).state.lg = (draw pw s).state.lg ∧
    (draw pw { s with lg := lg0 }).state.lg = (draw pw s).state.lg ∧
    ((draw pw s).state.lg).map some =
      (detectColumns (getBindings s)).map
        (fun c => createGeojson pw (getBindings s) c.colName) := by
  refine ⟨?_, ?_, ?_⟩
  · exact draw_lg_eq_of_yasr pw s (draw pw s).state (draw_state_yasr pw s)
  · exact draw_lg_eq_of_yasr pw s { s with lg := lg0 } rfl
  · rw [draw_state_lg]
    cases hb : bindingsChain s with
    | none =>
      rw [detectColumns_of_chain_none s hb]
      rfl
    | some b =>
      have hgb : getBindings s = b := by
        unfold getBindings
        rw [hb]
        rfl
      rw [hgb] at h ⊢
      apply updateMapLoop_layers
      intro c hc
      obtain ⟨fs, hfs⟩ :=
        buildFeatures_total pw c.colName b (fun row hr => h c hc row hr)
      unfold createGeojson
      rw [hfs]
      rfl

/-- C6 witness: the one-row WKT result set draws to exactly its derived
feature collection. -/
theorem C6_witness :
    ((draw wktNull oneRowState).state.lg).map some =
      (detectColumns (getBindings oneRowState)).map
        (fun c => createGeojson wktNull (getBindings oneRowState) c.colName) :=
  (C6_draw_idempotent wktNull oneRowState [] (by decide)).2.2

/-- C7: at a zero-row result set the capability probe is false and a draw
leaves an empty Results layer group with no in-loop bounds-fit, but —
against the claim and against the code's own comment — the deferred 100ms
follow-up, which unconditionally re-applies the bounds-fit, is still
scheduled. -/
theorem C7_code_behavior :
    (canHandleResults emptyResultsState).1 = false ∧
    (draw wktNull emptyResultsState).state.lg = [] ∧
    (draw wktNull emptyResultsState).boundsFitsDuringDraw = 0 ∧
    (draw wktNull emptyResultsState).deferredBoundsFit = true := by decide

/-- C8: every typed value whose datatype URI is not a key of the conversion
table is normalized, without failing, to the degenerate empty point
geometry. -/
theorem C8_unknown_datatype (pw : String → GeoValue) (tv : TypedValue)
    (h : ∀ dt, tv.datatype = some dt → dt ∉ conversionKeys) :
    normalizeGeometry pw tv = GeoValue.obj emptyPoint :=
  normalize_unknown pw tv h

/-- C8 witness: a cell with an unrecognized datatype URI maps to the empty
point. -/
theorem C8_witness :
    normalizeGeometry wktNull
      { value := "POINT(0 0)", datatype := some "http://example.org/unknown" } =
    GeoValue.obj emptyPoint :=
  C8_unknown_datatype wktNull
    { value := "POINT(0 0)", datatype := some "http://example.org/unknown" }
    (by
      intro dt hdt
      simp only [Option.some.injEq] at hdt
      subst hdt
      decide)

/-- C9 counterexample: invoking canHandleResults() on a state whose stored
descriptor list is stale overwrites the geometryColumns field — the probe
is not free of side effects on the plugin's state. -/
theorem C9_counterexample :
    (canHandleResults staleState).2.geometryColumns ≠
      staleState.geometryColumns ∧
    (canHandleResults staleState).2 ≠ staleState := by decide

/-- C9 amended: canHandleResults() re-runs detection and overwrites exactly
the geometryColumns field with the freshly detected descriptors; the host
reference (and with it the source result set) and the layer group are left
unchanged, and when the stored descriptors already match the current result
set the whole state is unchanged. -/
theorem C9_probe_overwrites (s : GeoPluginState) :
    (canHandleResults s).2 =
      { s with geometryColumns := detectColumns (getBindings s) } ∧
    (canHandleResults s).2.yasr = s.yasr ∧
    (canHandleResults s).2.lg = s.lg ∧
    (s.geometryColumns = detectColumns (getBindings s) →
      (canHandleResults s).2 = s) := by
  refine ⟨rfl, rfl, rfl, fun h => ?_⟩
  rw [canHandleResults_snd]
  unfold updateColumns
  rw [← h]

/-- C9 witness: on a state whose stored descriptors already match the
current (empty) result set, the probe leaves the state unchanged. -/
theorem C9_witness :
    (canHandleResults emptyResultsState).2 = emptyResultsState :=
  (C9_probe_overwrites emptyResultsState).2.2.2 (by decide)

/-- C10: whenever any link of the optional chain to the bindings list is
absent, or the bindings list is empty, updateColumns returns normally with
an empty descriptor list and canHandleResults returns false. -/
theorem C10_absent_results (s : GeoPluginState)
    (h : bindingsChain s = none ∨ bindingsChain s = some []) :
    (updateColumns s).geometryColumns = [] ∧
    (canHandleResults s).1 = false ∧
    (canHandleResults s).2.geometryColumns = [] := by
  have hb : getBindings s = [] := by
    rcases h with h | h <;> simp [getBindings, h]
  have hd : detectColumns (getBindings s) = [] := by
    rw [hb]
    rfl
  refine ⟨?_, ?_, ?_⟩
  · simp [updateColumns, hd]
  · rw [canHandleResults_fst, hd]
    rfl
  · rw [canHandleResults_snd]
    simp [updateColumns, hd]

/-- C10 witness: a plugin state with no host reference at all is handled
with an empty descriptor list and a false probe. -/
theorem C10_witness :
    (updateColumns noYasrState).geometryColumns = [] ∧
    (canHandleResults noYasrState).1 = false ∧
    (canHandleResults noYasrState).2.geometryColumns = [] :=
  C10_absent_results noYasrState (Or.inl rfl)
